import Mathlib

/-!
Verification of the scaling-explorer repository's synthetic-profiling scripts.

The Python sources are shallowly embedded over `ℚ`:
* `GenConc` embeds `generate_concurrent_datasets.py`
  (class `ConcurrentSimulationProfiler`).
* `BaselineGen` embeds `matplotlib_standard/energyplus_profiling_data.py`.
* `ContendedGen` embeds `matplotlib_standard/energyplus_profiling_contended.py`.
* `HybridGen` embeds `matplotlib_standard/energyplus_profiling_hybrid.py`.
* `SimpleCompare` embeds `matplotlib_standard/energyplus_simple_compare.py`.
* `Loading` embeds the error-handling control flow of the JSON loaders
  (`energyplus_simple_compare.load_data`, `energyplus_comparison_viz.load_data`,
  `test_data_loading.test_data_loading`,
  `simulation_explorer_ui_mockup.auto_load_project_file`).

Python floats are modelled as exact rationals; `random.*` draws are passed in
as explicit parameters so every generated dataset corresponds to some choice
of draw parameters in the documented ranges.
-/

/-- Python `round(x, n)` modelled on `ℚ`: round `x` to `n` decimal places. -/
def roundTo (n : ℕ) (x : ℚ) : ℚ :=
  (round (x * 10 ^ n) : ℚ) / 10 ^ n

/-- Python `int(x)` (truncation toward zero) modelled on `ℚ`. -/
def pyInt (x : ℚ) : ℤ :=
  if 0 ≤ x then ⌊x⌋ else ⌈x⌉

/-- Python `min(l)` on a nonempty list, with a default for the empty list
(the scripts always guard the empty case with `... if call_times else dflt`). -/
def listMin (l : List ℚ) (dflt : ℚ) : ℚ :=
  match l with
  | [] => dflt
  | x :: xs => xs.foldl min x

/-- Python `max(l)` on a nonempty list, with a default for the empty list. -/
def listMax (l : List ℚ) (dflt : ℚ) : ℚ :=
  match l with
  | [] => dflt
  | x :: xs => xs.foldl max x

/-- The profiling record shared by every generator: the value attached to one
function name in the serialized `"functions"` mapping (scenario-specific
metrics sub-records are modelled separately where they occur). -/
structure FuncData where
  total_time : ℚ
  call_count : ℤ
  avg_time_per_call : ℚ
  min_time : ℚ
  max_time : ℚ
  std_deviation : ℚ
  percentage_of_total : ℚ
deriving DecidableEq

/-- The percentage-update loop of `_generate_summary`
(`energyplus_profiling_data.py` lines 145-149, and identically
`energyplus_profiling_contended.py` lines 239-243 and the multithreaded and
hybrid siblings): each stored `total_time` is divided by the sum of the
stored `total_time` values, scaled to percent and rounded to 2 decimals.
The records list is abstracted to its list of `total_time` values. -/
def updatePercentages (ts : List ℚ) : List ℚ :=
  ts.map (fun t => roundTo 2 (t / ts.sum * 100))

namespace GenConc

/-- `self.num_threads_per_simulation = [1, 2, 4, 8, 16, 32]` from
`ConcurrentSimulationProfiler.__init__`. -/
def num_threads_per_simulation : List ℕ := [1, 2, 4, 8, 16, 32]

/-- `self.num_concurrent_simulations = [1, 2, 4, 8, 16, 32, 64]` from
`ConcurrentSimulationProfiler.__init__`. -/
def num_concurrent_simulations : List ℕ := [1, 2, 4, 8, 16, 32, 64]

/-- `self.base_simulation_time = 388.23` from
`ConcurrentSimulationProfiler.__init__`. -/
def base_simulation_time : ℚ := 38823 / 100

/-- One entry of the `self.base_functions` table:
`{"time": ..., "calls": ..., "percentage": ...}`. -/
structure BaseFunc where
  time : ℚ
  calls : ℤ
  percentage : ℚ
deriving DecidableEq

/-- The fixed `self.base_functions` table from
`ConcurrentSimulationProfiler.__init__` (insertion order preserved). -/
def base_functions : List (String × BaseFunc) :=
  [ ("SimulateHVAC", ⟨452/10, 842, 1164/100⟩),
    ("CalcAirLoopSplitter", ⟨21/10, 1147, 54/100⟩),
    ("SimulateAirLoopComponents", ⟨187/10, 952, 482/100⟩),
    ("CalcFanSystemTemperatures", ⟨34/10, 1096, 88/100⟩),
    ("SimulateCoils", ⟨89/10, 992, 229/100⟩),
    ("CalcCoolingCoil", ⟨52/10, 876, 134/100⟩),
    ("CalcHeatingCoil", ⟨41/10, 836, 106/100⟩),
    ("SimulateChillers", ⟨125/10, 426, 322/100⟩),
    ("CalcBoilerModel", ⟨68/10, 364, 175/100⟩),
    ("SimulatePumps", ⟨29/10, 750, 75/100⟩),
    ("ManageZoneEquipment", ⟨156/10, 1200, 402/100⟩),
    ("CalcZoneAirLoads", ⟨221/10, 1172, 569/100⟩),
    ("SimulateInternalHeatGains", ⟨73/10, 1088, 188/100⟩),
    ("CalcWindowHeatBalance", ⟨198/10, 917, 510/100⟩),
    ("CalcExteriorSurfaceTemp", ⟨87/10, 1029, 224/100⟩),
    ("CalcInteriorSurfaceTemp", ⟨112/10, 1049, 289/100⟩),
    ("CalcHeatBalFiniteDiff", ⟨314/10, 733, 809/100⟩),
    ("CalcHeatBalConductionTransferFunction", ⟨257/10, 678, 662/100⟩),
    ("ManageWeather", ⟨18/10, 8728, 46/100⟩),
    ("CalcSolarRadiation", ⟨135/10, 1217, 348/100⟩),
    ("CalcDifferenceSolarRadiation", ⟨42/10, 1076, 108/100⟩),
    ("InterpolateBetweenTwoValues", ⟨5/100, 14799, 1/100⟩),
    ("CalculateSunDirectionCosines", ⟨8/10, 8114, 21/100⟩),
    ("ManagePlantLoops", ⟨289/10, 636, 744/100⟩),
    ("SimulatePlantProfile", ⟨37/10, 693, 95/100⟩),
    ("UpdatePlantLoopInterface", ⟨21/10, 866, 54/100⟩),
    ("CalcPlantValves", ⟨19/10, 427, 49/100⟩),
    ("CalcTariffEvaluation", ⟨51/10, 119, 131/100⟩),
    ("UpdateUtilityBills", ⟨23/10, 142, 59/100⟩),
    ("EconomicTariffManager", ⟨38/10, 104, 98/100⟩),
    ("UpdateDataandReport", ⟨124/10, 186, 319/100⟩),
    ("WriteOutputToSQLite", ⟨87/10, 177, 224/100⟩),
    ("ReportSurfaceHeatBalance", ⟨46/10, 179, 118/100⟩),
    ("ReportAirHeatBalance", ⟨39/10, 178, 1⟩),
    ("UpdateMeterReporting", ⟨21/10, 208, 54/100⟩),
    ("GetInput", ⟨157/10, 1, 404/100⟩),
    ("InitializeSimulation", ⟨83/10, 1, 214/100⟩),
    ("SetupNodeVarsForReporting", ⟨24/10, 1, 62/100⟩),
    ("SetupOutputVariables", ⟨31/10, 1, 80/100⟩),
    ("ValidateInputData", ⟨48/10, 1, 124/100⟩),
    ("PsyRhoAirFnPbTdbW", ⟨2/100, 44680, 1/100⟩),
    ("PsyHFnTdbW", ⟨15/1000, 49010, 0⟩),
    ("PsyCpAirFnW", ⟨12/1000, 37769, 0⟩),
    ("PsyTsatFnHPb", ⟨18/1000, 26732, 0⟩),
    ("POLYF", ⟨8/1000, 115479, 0⟩),
    ("CurveValue", ⟨12/1000, 83630, 0⟩),
    ("TableLookup", ⟨25/1000, 68817, 1/100⟩),
    ("RegularQn", ⟨35/1000, 34688, 1/100⟩) ]

/-- The dictionary returned by `calculate_performance_factors`. -/
structure PerfFactors where
  memory_contention : ℚ
  io_contention : ℚ
  cache_contention : ℚ
  cpu_efficiency : ℚ
  context_switch_penalty : ℚ
  total_threads : ℕ
deriving DecidableEq

/-- `ConcurrentSimulationProfiler.calculate_performance_factors`, translated
line by line (Python ints are cast to `ℚ` before the subtractions). -/
def calculate_performance_factors (num_concurrent threads_per_sim : ℕ) :
    PerfFactors :=
  let memory_contention : ℚ := 1 + ((num_concurrent : ℚ) - 1) * (15/100)
  let io_contention : ℚ := 1 + ((num_concurrent : ℚ) - 1) * (25/100)
  let cache_contention : ℚ := 1 + ((num_concurrent : ℚ) - 1) * (8/100)
  let cpu_efficiency : ℚ :=
    if threads_per_sim = 1 then 1
    else
      let parallel_fraction : ℚ := 7/10
      let eff := 1 / (1 - parallel_fraction + parallel_fraction / (threads_per_sim : ℚ))
      let thread_overhead : ℚ := 1 + ((threads_per_sim : ℚ) - 1) * (3/100)
      eff / thread_overhead
  let total_threads : ℕ := num_concurrent * threads_per_sim
  let context_switch_penalty : ℚ := 1 + ((total_threads : ℚ) - 1) * (2/1000)
  { memory_contention := memory_contention
    io_contention := io_contention
    cache_contention := cache_contention
    cpu_efficiency := cpu_efficiency
    context_switch_penalty := context_switch_penalty
    total_threads := total_threads }

/-- Category list `io_intensive` from `apply_function_specific_effects`. -/
def io_intensive : List String :=
  ["WriteOutputToSQLite", "UpdateDataandReport", "GetInput",
   "ReportSurfaceHeatBalance", "ReportAirHeatBalance"]

/-- Category list `cpu_intensive` from `apply_function_specific_effects`. -/
def cpu_intensive : List String :=
  ["CalcHeatBalFiniteDiff", "CalcHeatBalConductionTransferFunction",
   "CalcWindowHeatBalance", "SimulateHVAC"]

/-- Category list `parallelizable` from `apply_function_specific_effects`. -/
def parallelizable : List String :=
  ["CalcZoneAirLoads", "ManageZoneEquipment", "SimulateAirLoopComponents",
   "CalcSolarRadiation"]

/-- Category list `memory_intensive` from `apply_function_specific_effects`. -/
def memory_intensive : List String :=
  ["ManagePlantLoops", "SimulateChillers", "CalcBoilerModel"]

/-- Category list `math_functions` from `apply_function_specific_effects`. -/
def math_functions : List String :=
  ["POLYF", "CurveValue", "TableLookup", "RegularQn",
   "PsyRhoAirFnPbTdbW", "PsyHFnTdbW"]

/-- `ConcurrentSimulationProfiler.apply_function_specific_effects`, translated
branch by branch; the final line is `max(adjusted_time, base_time * 0.1)`. -/
def apply_function_specific_effects (func_name : String) (base_time : ℚ)
    (factors : PerfFactors) : ℚ :=
  let adjusted₀ := base_time * factors.context_switch_penalty
  let adjusted :=
    if func_name ∈ io_intensive then
      let a := adjusted₀ * factors.io_contention
      let a := a * (factors.memory_contention * (8/10))
      if factors.cpu_efficiency > 1 then
        let cpu_benefit := 1 + (factors.cpu_efficiency - 1) * (1/10)
        a / cpu_benefit
      else a
    else if func_name ∈ cpu_intensive then
      let a := adjusted₀ * factors.cache_contention
      let a := a / factors.cpu_efficiency
      a * (factors.memory_contention * (6/10))
    else if func_name ∈ parallelizable then
      let a := adjusted₀ / (factors.cpu_efficiency * (11/10))
      let a := a * (factors.cache_contention * (8/10))
      a * (factors.memory_contention * (5/10))
    else if func_name ∈ memory_intensive then
      let a := adjusted₀ * (factors.memory_contention * (12/10))
      let a := a * factors.cache_contention
      a / (factors.cpu_efficiency * (8/10))
    else if func_name ∈ math_functions then
      let a := adjusted₀ * (factors.cache_contention * (11/10))
      if factors.cpu_efficiency > 1 then
        let cpu_benefit := 1 + (factors.cpu_efficiency - 1) * (3/10)
        a / cpu_benefit
      else a
    else
      let a := adjusted₀ * (factors.memory_contention * (7/10))
      let a := a * (factors.cache_contention * (9/10))
      a / (factors.cpu_efficiency * (7/10))
  max adjusted (base_time * (1/10))

/-- The `random.uniform` draws consumed for one function inside
`generate_function_data`: `variability ~ uniform(0.95, 1.05)`,
`minFactor ~ uniform(0.1, 0.3)`, `maxFactor ~ uniform(3.0, 8.0)`,
`stdFactor ~ uniform(0.2, 0.4)`. -/
structure Draws where
  variability : ℚ
  minFactor : ℚ
  maxFactor : ℚ
  stdFactor : ℚ

/-- `ConcurrentSimulationProfiler.generate_function_data`: builds one record
per `base_functions` entry (accumulating the un-rounded `final_time` into
`total_time`), then fills in `percentage_of_total` from the accumulated total.
Returns the records in insertion order together with the accumulated total. -/
def generate_function_data (factors : PerfFactors) (rng : String → Draws) :
    List (String × FuncData) × ℚ :=
  let entries : List (String × ℚ × FuncData) :=
    base_functions.map (fun p =>
      let base_time := p.2.time
      let base_calls : ℤ := p.2.calls
      let adjusted_time := apply_function_specific_effects p.1 base_time factors
      let final_time := adjusted_time * (rng p.1).variability
      let avg_time_per_call :=
        if 0 < base_calls then final_time / (base_calls : ℚ) else 0
      let min_time := avg_time_per_call * (rng p.1).minFactor
      let max_time := avg_time_per_call * (rng p.1).maxFactor
      let std_deviation := avg_time_per_call * (rng p.1).stdFactor
      (p.1, final_time,
        { total_time := roundTo 6 final_time
          call_count := base_calls
          avg_time_per_call := roundTo 6 avg_time_per_call
          min_time := roundTo 6 min_time
          max_time := roundTo 6 max_time
          std_deviation := roundTo 6 std_deviation
          percentage_of_total := 0 }))
  let total_time := (entries.map (fun e => e.2.1)).sum
  let functions_data := entries.map (fun e =>
    (e.1, { e.2.2 with
              percentage_of_total := roundTo 2 (e.2.2.total_time / total_time * 100) }))
  (functions_data, total_time)

/-- The comparison key of `sorted(functions_data.items(),
key=lambda x: x[1]['total_time'], reverse=True)`: descending `total_time`. -/
def byTimeDesc (a b : String × FuncData) : Prop :=
  b.2.total_time ≤ a.2.total_time

instance : DecidableRel byTimeDesc := fun a b => by
  unfold byTimeDesc; infer_instance

instance : IsTotal (String × FuncData) byTimeDesc :=
  ⟨fun a b => le_total b.2.total_time a.2.total_time⟩

instance : IsTrans (String × FuncData) byTimeDesc :=
  ⟨fun _ _ _ hab hbc => le_trans hbc hab⟩

/-- The comparison key of `sorted(functions_data.items(),
key=lambda x: x[1]['call_count'], reverse=True)`: descending `call_count`. -/
def byCallsDesc (a b : String × FuncData) : Prop :=
  b.2.call_count ≤ a.2.call_count

instance : DecidableRel byCallsDesc := fun a b => by
  unfold byCallsDesc; infer_instance

instance : IsTotal (String × FuncData) byCallsDesc :=
  ⟨fun a b => le_total b.2.call_count a.2.call_count⟩

instance : IsTrans (String × FuncData) byCallsDesc :=
  ⟨fun _ _ _ hab hbc => le_trans hbc hab⟩

/-- One entry of `summary["top_5_time_consumers"]`. -/
structure TimeConsumerEntry where
  function : String
  time : ℚ
  percentage : ℚ
deriving DecidableEq

/-- One entry of `summary["most_called_functions"]`. -/
structure CalledEntry where
  function : String
  calls : ℤ
  avg_time : ℚ
deriving DecidableEq

/-- `metadata["system_conditions"]` of a generated dataset. -/
structure SystemConditions where
  concurrent_simulations : ℕ
  threads_per_simulation : ℕ
  total_threads : ℕ
  estimated_memory_usage_gb : ℚ
  cpu_utilization_percent : ℕ
  scheduler_scenario : String
  resource_contention_level : String
deriving DecidableEq

/-- `metadata["performance_factors"]` (the rounded factor dictionary). -/
structure RoundedFactors where
  memory_contention_factor : ℚ
  io_contention_factor : ℚ
  cache_contention_factor : ℚ
  cpu_efficiency_factor : ℚ
  context_switch_penalty : ℚ
deriving DecidableEq

/-- `metadata` of a generated dataset (`timestamp` is wall-clock time and is
not modelled). -/
structure Metadata where
  building_type : String
  climate_zone : String
  simulation_period : String
  timestep : String
  total_simulation_time : ℚ
  system_conditions : SystemConditions
  performance_factors : RoundedFactors
deriving DecidableEq

/-- `summary` of a generated dataset. -/
structure Summary where
  total_simulation_time : ℚ
  baseline_simulation_time : ℚ
  performance_ratio : ℚ
  total_function_calls : ℤ
  concurrent_simulations : ℕ
  threads_per_simulation : ℕ
  total_threads : ℕ
  top_5_time_consumers : List TimeConsumerEntry
  most_called_functions : List CalledEntry
deriving DecidableEq

/-- A complete generated dataset (`timestamp` omitted, see `Metadata`). -/
structure Dataset where
  metadata : Metadata
  functions : List (String × FuncData)
  summary : Summary
deriving DecidableEq

/-- `ConcurrentSimulationProfiler._get_scheduler_scenario`. -/
def _get_scheduler_scenario (num_concurrent threads_per_sim : ℕ) : String :=
  let total_threads := num_concurrent * threads_per_sim
  if total_threads ≤ 4 then "Low contention"
  else if total_threads ≤ 16 then "Moderate contention"
  else if total_threads ≤ 64 then "High contention"
  else "Severe contention"

/-- `ConcurrentSimulationProfiler._get_contention_level`. -/
def _get_contention_level (factors : PerfFactors) : String :=
  let avg_contention := (factors.memory_contention + factors.io_contention +
    factors.cache_contention + factors.context_switch_penalty) / 4
  if avg_contention < 12/10 then "Low"
  else if avg_contention < 15/10 then "Moderate"
  else if avg_contention < 2 then "High"
  else "Severe"

/-- `ConcurrentSimulationProfiler.generate_dataset`, translated statement by
statement. -/
def generate_dataset (num_concurrent threads_per_sim : ℕ)
    (rng : String → Draws) : Dataset :=
  let factors := calculate_performance_factors num_concurrent threads_per_sim
  let fd := generate_function_data factors rng
  let functions_data := fd.1
  let total_time := fd.2
  let total_calls := (functions_data.map (fun f => f.2.call_count)).sum
  let base_memory_gb : ℚ := 21/10
  let memory_overhead : ℚ := 1 + ((num_concurrent : ℚ) - 1) * (3/10)
  let estimated_memory_gb := base_memory_gb * (num_concurrent : ℚ) * memory_overhead
  let system_conditions : SystemConditions :=
    { concurrent_simulations := num_concurrent
      threads_per_simulation := threads_per_sim
      total_threads := factors.total_threads
      estimated_memory_usage_gb := roundTo 1 estimated_memory_gb
      cpu_utilization_percent := min 95 (factors.total_threads * 12)
      scheduler_scenario := _get_scheduler_scenario num_concurrent threads_per_sim
      resource_contention_level := _get_contention_level factors }
  let metadata : Metadata :=
    { building_type := "Commercial Office"
      climate_zone := "4A"
      simulation_period := "Annual"
      timestep := "4 per hour"
      total_simulation_time := roundTo 6 total_time
      system_conditions := system_conditions
      performance_factors :=
        { memory_contention_factor := roundTo 3 factors.memory_contention
          io_contention_factor := roundTo 3 factors.io_contention
          cache_contention_factor := roundTo 3 factors.cache_contention
          cpu_efficiency_factor := roundTo 3 factors.cpu_efficiency
          context_switch_penalty := roundTo 3 factors.context_switch_penalty } }
  let sorted_functions := List.insertionSort byTimeDesc functions_data
  let top_5_consumers := (sorted_functions.take 5).map (fun e =>
    ({ function := e.1, time := e.2.total_time,
       percentage := e.2.percentage_of_total } : TimeConsumerEntry))
  let most_called := (List.insertionSort byCallsDesc functions_data).take 5
  let most_called_functions := most_called.map (fun e =>
    ({ function := e.1, calls := e.2.call_count,
       avg_time := e.2.avg_time_per_call } : CalledEntry))
  let summary : Summary :=
    { total_simulation_time := roundTo 3 total_time
      baseline_simulation_time := base_simulation_time
      performance_ratio := roundTo 3 (total_time / base_simulation_time)
      total_function_calls := total_calls
      concurrent_simulations := num_concurrent
      threads_per_simulation := threads_per_sim
      total_threads := factors.total_threads
      top_5_time_consumers := top_5_consumers
      most_called_functions := most_called_functions }
  { metadata := metadata, functions := functions_data, summary := summary }

end GenConc

namespace BaselineGen

/-- The random draws consumed by one call of
`EnergyPlusProfiler._generate_function_data`:
`callVar ~ uniform(0.95, 1.05)`, `callNoise i` the i-th
`normalvariate(avg_per_call, std_per_call)` draw, and
`totalNoise ~ normalvariate(0, std_dev * 0.1)`. -/
structure BDraws where
  callVar : ℚ
  callNoise : ℕ → ℚ
  totalNoise : ℚ

/-- `EnergyPlusProfiler._generate_function_data`
(`energyplus_profiling_data.py` lines 111-138): the call count is perturbed
and clamped with `max(1, int(...))`, up to 100 individual call times are
sampled, and the total time is perturbed and clamped with `max(0.001, ...)`. -/
def _generate_function_data (avg_time std_dev : ℚ) (call_count : ℤ)
    (d : BDraws) : FuncData :=
  let actual_calls : ℤ := max 1 (pyInt ((call_count : ℚ) * d.callVar))
  let call_times : List ℚ :=
    if 0 < actual_calls then
      (List.range (min 100 actual_calls.toNat)).map
        (fun i => max (1/1000) (d.callNoise i))
    else []
  let total_time := max (1/1000) (avg_time + d.totalNoise)
  let avg_per_call :=
    if 0 < actual_calls then total_time / (actual_calls : ℚ) else total_time
  { total_time := roundTo 6 total_time
    call_count := actual_calls
    avg_time_per_call := roundTo 6 avg_per_call
    min_time := roundTo 6 (listMin call_times avg_per_call)
    max_time := roundTo 6 (listMax call_times avg_per_call)
    std_deviation := roundTo 6 (if 1 < actual_calls then std_dev / (actual_calls : ℚ) else 0)
    percentage_of_total := 0 }

end BaselineGen

namespace ContendedGen

/-- The random draws consumed by one call of
`EnergyPlusContentionProfiler._generate_contended_data`:
`callVar ~ uniform(0.92, 1.03)`; per call-time index `i`, `callNoise i` is the
`normalvariate` draw, `swapRoll i`/`cacheRoll i` are the two `random.random()`
rolls, `swapMult i ~ uniform(5, 15)` and `cacheMult i ~ uniform(2, 4)` the
outlier multipliers; `totalNoise ~ normalvariate(0, contended_std * 0.15)`. -/
structure CDraws where
  callVar : ℚ
  callNoise : ℕ → ℚ
  swapRoll : ℕ → ℚ
  swapMult : ℕ → ℚ
  cacheRoll : ℕ → ℚ
  cacheMult : ℕ → ℚ
  totalNoise : ℚ

/-- The `contention_metrics` sub-record stored by
`_generate_contended_data`. -/
structure ContentionMetrics where
  baseline_time : ℚ
  contention_factor : ℚ
  performance_degradation_percent : ℚ
  variability_increase_factor : ℚ
deriving DecidableEq

/-- `EnergyPlusContentionProfiler._generate_contended_data`
(`energyplus_profiling_contended.py` lines 176-231). -/
def _generate_contended_data (baseline_time baseline_std : ℚ) (call_count : ℤ)
    (contention_factor variability_increase : ℚ) (d : CDraws) :
    FuncData × ContentionMetrics :=
  let contended_time := baseline_time * contention_factor
  let contended_std := baseline_std * variability_increase
  let actual_calls : ℤ := max 1 (pyInt ((call_count : ℚ) * d.callVar))
  let call_times : List ℚ :=
    if 0 < actual_calls then
      (List.range (min 100 actual_calls.toNat)).map (fun i =>
        let base := max (1/1000) (d.callNoise i)
        if d.swapRoll i < 5/100 then base * d.swapMult i
        else if d.cacheRoll i < 15/100 then base * d.cacheMult i
        else base)
    else []
  let total_time := max (1/1000) (contended_time + d.totalNoise)
  let avg_per_call :=
    if 0 < actual_calls then total_time / (actual_calls : ℚ) else total_time
  ({ total_time := roundTo 6 total_time
     call_count := actual_calls
     avg_time_per_call := roundTo 6 avg_per_call
     min_time := roundTo 6 (listMin call_times avg_per_call)
     max_time := roundTo 6 (listMax call_times avg_per_call)
     std_deviation := roundTo 6 (if 1 < actual_calls then contended_std / (actual_calls : ℚ) else 0)
     percentage_of_total := 0 },
   { baseline_time := roundTo 6 baseline_time
     contention_factor := roundTo 2 contention_factor
     performance_degradation_percent := roundTo 1 ((contention_factor - 1) * 100)
     variability_increase_factor := roundTo 2 variability_increase })

end ContendedGen

namespace HybridGen

/-- The random draws consumed by one call of
`EnergyPlusHybridProfiler._generate_hybrid_data`:
`callVar ~ uniform(0.96, 1.04)`; per call-time index `i`, `callNoise i` is the
`normalvariate` draw, `memRoll i`/`syncRoll i`/`cacheRoll i` the three
`random.random()` rolls with multipliers `memMult i ~ uniform(8, 20)`,
`syncMult i ~ uniform(2, 5)`, `cacheMult i ~ uniform(1.5, 3)`;
`totalNoise ~ normalvariate(0, hybrid_std * 0.12)`. -/
structure HDraws where
  callVar : ℚ
  callNoise : ℕ → ℚ
  memRoll : ℕ → ℚ
  memMult : ℕ → ℚ
  syncRoll : ℕ → ℚ
  syncMult : ℕ → ℚ
  cacheRoll : ℕ → ℚ
  cacheMult : ℕ → ℚ
  totalNoise : ℚ

/-- The `hybrid_metrics` sub-record stored by `_generate_hybrid_data`. -/
structure HybridMetrics where
  baseline_time : ℚ
  thread_improvement_factor : ℚ
  thread_efficiency : ℚ
  contention_factor : ℚ
  effective_thread_improvement : ℚ
  net_performance_ratio : ℚ
  net_effect : String
  time_saved_from_threading : ℚ
  time_lost_to_contention : ℚ
  net_time_change : ℚ
deriving DecidableEq

/-- `EnergyPlusHybridProfiler._generate_hybrid_data`
(`energyplus_profiling_hybrid.py` lines 230-300): threading improvement is
applied first, then the contention slowdown, then random jitter. -/
def _generate_hybrid_data (baseline_time baseline_std : ℚ) (call_count : ℤ)
    (thread_improvement thread_efficiency contention_factor : ℚ)
    (net_effect : String) (d : HDraws) : FuncData × HybridMetrics :=
  let effective_thread_improvement :=
    1 + (thread_improvement - 1) * thread_efficiency
  let threaded_time := baseline_time / effective_thread_improvement
  let final_time := threaded_time * contention_factor
  let net_performance_ratio := final_time / baseline_time
  let hybrid_std := baseline_std * (14/10)
  let actual_calls : ℤ := max 1 (pyInt ((call_count : ℚ) * d.callVar))
  let call_times : List ℚ :=
    if 0 < actual_calls then
      (List.range (min 100 actual_calls.toNat)).map (fun i =>
        let base := max (1/1000) (d.callNoise i)
        if d.memRoll i < 3/100 then base * d.memMult i
        else if d.syncRoll i < 8/100 then base * d.syncMult i
        else if d.cacheRoll i < 12/100 then base * d.cacheMult i
        else base)
    else []
  let total_time := max (1/1000) (final_time + d.totalNoise)
  let avg_per_call :=
    if 0 < actual_calls then total_time / (actual_calls : ℚ) else total_time
  ({ total_time := roundTo 6 total_time
     call_count := actual_calls
     avg_time_per_call := roundTo 6 avg_per_call
     min_time := roundTo 6 (listMin call_times avg_per_call)
     max_time := roundTo 6 (listMax call_times avg_per_call)
     std_deviation := roundTo 6 (if 1 < actual_calls then hybrid_std / (actual_calls : ℚ) else 0)
     percentage_of_total := 0 },
   { baseline_time := roundTo 6 baseline_time
     thread_improvement_factor := roundTo 2 thread_improvement
     thread_efficiency := roundTo 2 thread_efficiency
     contention_factor := roundTo 2 contention_factor
     effective_thread_improvement := roundTo 2 effective_thread_improvement
     net_performance_ratio := roundTo 2 net_performance_ratio
     net_effect := net_effect
     time_saved_from_threading :=
       roundTo 6 (baseline_time - baseline_time / effective_thread_improvement)
     time_lost_to_contention :=
       roundTo 6 (final_time - baseline_time / effective_thread_improvement)
     net_time_change := roundTo 6 (final_time - baseline_time) })

/-- The claim's closed form for the pre-jitter final time of the hybrid
scenario: threading gain and contention loss applied to the same baseline, in
that order. Stated from the spec sentence, to be compared with
`_generate_hybrid_data`. -/
def hybridFinalTimeSpec (baseline_time thread_improvement thread_efficiency
    contention_factor : ℚ) : ℚ :=
  (baseline_time / (1 + (thread_improvement - 1) * thread_efficiency))
    * contention_factor

/-- A fixed choice of draws used to exhibit concrete hybrid records
(unit variability, no noise, no outlier events). -/
def neutralHDraws : HDraws :=
  { callVar := 1, callNoise := fun _ => 0, memRoll := fun _ => 1,
    memMult := fun _ => 1, syncRoll := fun _ => 1, syncMult := fun _ => 1,
    cacheRoll := fun _ => 1, cacheMult := fun _ => 1, totalNoise := 0 }

end HybridGen

namespace SimpleCompare

/-- One entry of the `comparison_results` list built by
`SimpleEnergyPlusComparator.prepare_comparison_data`. -/
structure CompRecord where
  function : String
  baseline_time : ℚ
  measurement_time : ℚ
  ratio : ℚ
deriving DecidableEq

/-- `set(baseline_functions.keys()) & set(measurement_functions.keys())`:
the function names present in both `"functions"` mappings. -/
def commonFunctions (bf mf : List (String × FuncData)) : List String :=
  (bf.map Prod.fst).filter (fun n => (mf.map Prod.fst).contains n)

/-- Dictionary access `functions[func_name]['total_time']` for a name known
to be present (`0` is never reachable for names in `commonFunctions`). -/
def lookupTime (name : String) (l : List (String × FuncData)) : ℚ :=
  match l.find? (fun p => p.1 = name) with
  | some p => p.2.total_time
  | none => 0

/-- `SimpleEnergyPlusComparator.prepare_comparison_data`
(`energyplus_simple_compare.py` lines 72-116): for each common function in
alphabetical order, record both times and the ratio normalized to baseline,
with fallback `1.0` when the baseline time is not positive. -/
def prepare_comparison_data (bf mf : List (String × FuncData)) :
    List CompRecord :=
  (List.insertionSort (fun a b : String => a ≤ b)
      (commonFunctions bf mf)).map (fun f =>
    let baseline_time := lookupTime f bf
    let measurement_time := lookupTime f mf
    { function := f
      baseline_time := baseline_time
      measurement_time := measurement_time
      ratio :=
        if 0 < baseline_time then measurement_time / baseline_time else 1 })

end SimpleCompare

namespace Loading

/-- The state of one input file as seen by a loader: absent, present but not
valid JSON, or present with valid JSON. -/
inductive FileRead where
  | missing
  | malformed
  | wellFormed
deriving DecidableEq

/-- The outcome of running a Python function: a normal return, or an
exception (named by its class) propagating to the caller. -/
inductive PyResult (α : Type) where
  | ret (a : α)
  | exc (e : String)
deriving DecidableEq

/-- Control flow of `SimpleEnergyPlusComparator.load_data`
(`energyplus_simple_compare.py` lines 46-70): each `json.load` is wrapped in
`try/except FileNotFoundError / except json.JSONDecodeError`, both handlers
print and `return False`. -/
def simple_compare_load_data (baseline measurement : FileRead) :
    PyResult Bool :=
  match baseline with
  | .missing => .ret false
  | .malformed => .ret false
  | .wellFormed =>
    match measurement with
    | .missing => .ret false
    | .malformed => .ret false
    | .wellFormed => .ret true

/-- Control flow of `EnergyPlusComparisonVisualizer.load_data`
(`energyplus_comparison_viz.py` lines 25-43; identically the hybrid,
multithreaded and analyzer loaders): only `FileNotFoundError` is caught, so a
`json.JSONDecodeError` propagates to the caller. -/
def comparison_viz_load_data (baseline contended : FileRead) :
    PyResult Bool :=
  match baseline with
  | .missing => .ret false
  | .malformed => .exc "JSONDecodeError"
  | .wellFormed =>
    match contended with
    | .missing => .ret false
    | .malformed => .exc "JSONDecodeError"
    | .wellFormed => .ret true

/-- Control flow of `test_data_loading.test_data_loading`
(`test_data_loading.py` lines 9-99): the project file is pre-checked with
`os.path.exists` (early return when absent) but its `json.load` (line 25) is
not wrapped in any `try`; the per-dataset loads (lines 42-60) are inside
`try/except Exception` and cannot escape; the sample file load (line 82) is
guarded by `os.path.exists` but again outside any `try`. -/
def test_data_loading (project sample : FileRead) : PyResult Unit :=
  match project with
  | .missing => .ret ()
  | .malformed => .exc "JSONDecodeError"
  | .wellFormed =>
    match sample with
    | .missing => .ret ()
    | .malformed => .exc "JSONDecodeError"
    | .wellFormed => .ret ()

/-- Body of one iteration of the candidate loop of
`SimulationExplorerUI.auto_load_project_file`
(`simulation_explorer_ui_mockup.py` lines 1385-1435) before its surrounding
`try`: `json.load` of the candidate may raise; the nested per-dataset loads
are inside `try/except json.JSONDecodeError` and cannot escape. -/
def auto_load_try_body (file : FileRead) : PyResult Unit :=
  match file with
  | .missing => .ret ()
  | .malformed => .exc "JSONDecodeError"
  | .wellFormed => .ret ()

/-- One iteration of the candidate loop of `auto_load_project_file`: the
existence pre-check skips absent files, and the whole body is inside
`try/except Exception` whose handler prints and continues. -/
def auto_load_try (file : FileRead) : PyResult Unit :=
  if file = .missing then .ret ()
  else
    match auto_load_try_body file with
    | .exc _ => .ret ()
    | .ret u => .ret u

/-- Control flow of `SimulationExplorerUI.auto_load_project_file`
(`simulation_explorer_ui_mockup.py` lines 1379-1435) over the candidate
project files `['energyplus_project.json', 'project.json', 'data.json']`. -/
def auto_load_project_file (candidates : List FileRead) : PyResult Unit :=
  candidates.foldl (fun _ file => auto_load_try file) (.ret ())

end Loading

/-- C9: the explicit floor at the end of `apply_function_specific_effects`
guarantees that the adjusted time of any function is at least 10% of its
base time, hence strictly positive whenever the base time is positive,
whatever the (positive) performance factors are. -/
theorem apply_effects_floor (func_name : String) (base_time : ℚ)
    (factors : GenConc.PerfFactors) (hbase : 0 < base_time)
    (_hmem : 0 < factors.memory_contention) (_hio : 0 < factors.io_contention)
    (_hcache : 0 < factors.cache_contention) (_hcpu : 0 < factors.cpu_efficiency)
    (_hctx : 0 < factors.context_switch_penalty) :
    base_time * (1/10) ≤
        GenConc.apply_function_specific_effects func_name base_time factors ∧
      0 < GenConc.apply_function_specific_effects func_name base_time factors := by
  have hfloor : base_time * (1/10) ≤
      GenConc.apply_function_specific_effects func_name base_time factors := by
    unfold GenConc.apply_function_specific_effects
    exact le_max_right _ _
  refine ⟨hfloor, lt_of_lt_of_le ?_ hfloor⟩
  positivity

/-- Witness for `apply_effects_floor` at a concrete function and factor set. -/
theorem apply_effects_floor_witness :
    (0 : ℚ) < 452/10 ∧
      (452/10 : ℚ) * (1/10) ≤
        GenConc.apply_function_specific_effects "SimulateHVAC" (452/10)
          (GenConc.calculate_performance_factors 2 2) := by
  have h := apply_effects_floor "SimulateHVAC" (452/10)
    (GenConc.calculate_performance_factors 2 2) (by norm_num)
    (by norm_num [GenConc.calculate_performance_factors])
    (by norm_num [GenConc.calculate_performance_factors])
    (by norm_num [GenConc.calculate_performance_factors])
    (by norm_num [GenConc.calculate_performance_factors])
    (by norm_num [GenConc.calculate_performance_factors])
  exact ⟨by norm_num, h.1⟩

/-- C1: `calculate_performance_factors` computes the Amdahl-style CPU
efficiency in closed form: `1` when `threads_per_sim = 1`, and
`(1 / (1 - 0.7 + 0.7 / threads)) / (1 + (threads - 1) * 0.03)` when
`threads_per_sim > 1`, for every concurrency level. -/
theorem cpu_efficiency_closed_form (num_concurrent threads_per_sim : ℕ) :
    (threads_per_sim = 1 →
      (GenConc.calculate_performance_factors num_concurrent threads_per_sim).cpu_efficiency
        = 1) ∧
    (1 < threads_per_sim →
      (GenConc.calculate_performance_factors num_concurrent threads_per_sim).cpu_efficiency
        = (1 / (1 - 7/10 + (7/10) / (threads_per_sim : ℚ)))
            / (1 + ((threads_per_sim : ℚ) - 1) * (3/100))) := by
  constructor
  · intro h
    simp [GenConc.calculate_performance_factors, h]
  · intro h
    have hne : threads_per_sim ≠ 1 := Nat.ne_of_gt h
    simp [GenConc.calculate_performance_factors, hne]

/-- Witness for `cpu_efficiency_closed_form` at `threads_per_sim = 2`. -/
theorem cpu_efficiency_closed_form_witness :
    1 < 2 ∧
      (GenConc.calculate_performance_factors 4 2).cpu_efficiency
        = (1 / (1 - 7/10 + (7/10) / (2 : ℚ))) / (1 + ((2 : ℚ) - 1) * (3/100)) :=
  ⟨by norm_num, (cpu_efficiency_closed_form 4 2).2 (by norm_num)⟩

/-- C10: at every thread count in the configured list
`num_threads_per_simulation = [1, 2, 4, 8, 16, 32]`, the modelled CPU
efficiency is at least `1`: the threading model never yields a slowdown
factor at a configured thread count, for any concurrency level. -/
theorem cpu_efficiency_ge_one (num_concurrent threads_per_sim : ℕ)
    (h : threads_per_sim ∈ GenConc.num_threads_per_simulation) :
    1 ≤ (GenConc.calculate_performance_factors num_concurrent threads_per_sim).cpu_efficiency := by
  have hcases : threads_per_sim = 1 ∨ threads_per_sim = 2 ∨ threads_per_sim = 4 ∨
      threads_per_sim = 8 ∨ threads_per_sim = 16 ∨ threads_per_sim = 32 := by
    simpa [GenConc.num_threads_per_simulation] using h
  rcases hcases with h1 | h1 | h1 | h1 | h1 | h1 <;>
    subst h1 <;> norm_num [GenConc.calculate_performance_factors]

/-- Witness for `cpu_efficiency_ge_one` at 32 threads per simulation. -/
theorem cpu_efficiency_ge_one_witness :
    32 ∈ GenConc.num_threads_per_simulation ∧
      1 ≤ (GenConc.calculate_performance_factors 64 32).cpu_efficiency :=
  ⟨by decide, cpu_efficiency_ge_one 64 32 (by decide)⟩

/-! ### Helper lemmas -/

lemma base_functions_calls_pos : ∀ p ∈ GenConc.base_functions, 1 ≤ p.2.calls := by
  decide

lemma base_functions_time_pos : ∀ p ∈ GenConc.base_functions, 0 < p.2.time := by
  norm_num [GenConc.base_functions, List.forall_mem_cons]

lemma abs_roundTo_sub_le (n : ℕ) (x : ℚ) :
    |roundTo n x - x| ≤ 1 / (2 * 10 ^ n) := by
  have h10 : (0 : ℚ) < 10 ^ n := by positivity
  have hr := abs_sub_round (x * 10 ^ n)
  rw [abs_sub_comm] at hr
  have heq : roundTo n x - x
      = ((round (x * 10 ^ n) : ℚ) - x * 10 ^ n) / 10 ^ n := by
    unfold roundTo; field_simp; ring
  rw [heq, abs_div, abs_of_pos h10]
  calc |(round (x * 10 ^ n) : ℚ) - x * 10 ^ n| / 10 ^ n
      ≤ (1 / 2) / 10 ^ n := by gcongr
    _ = 1 / (2 * 10 ^ n) := by rw [div_div]

lemma abs_sum_map_sub_le {α : Type} (l : List α) (f g : α → ℚ) (c : ℚ)
    (h : ∀ x ∈ l, |f x - g x| ≤ c) :
    |(l.map f).sum - (l.map g).sum| ≤ (l.length : ℚ) * c := by
  induction l with
  | nil => simp
  | cons a t ih =>
    have h1 : |f a - g a| ≤ c := h a (List.mem_cons_self a t)
    have h2 := ih (fun x hx => h x (List.mem_cons_of_mem a hx))
    have h3 : |f a + (t.map f).sum - (g a + (t.map g).sum)|
        ≤ |f a - g a| + |(t.map f).sum - (t.map g).sum| := by
      have := abs_add (f a - g a) ((t.map f).sum - (t.map g).sum)
      calc |f a + (t.map f).sum - (g a + (t.map g).sum)|
          = |(f a - g a) + ((t.map f).sum - (t.map g).sum)| := by ring_nf
        _ ≤ _ := this
    simp only [List.map_cons, List.sum_cons, List.length_cons]
    push_cast
    calc |f a + (t.map f).sum - (g a + (t.map g).sum)|
        ≤ |f a - g a| + |(t.map f).sum - (t.map g).sum| := h3
      _ ≤ c + (t.length : ℚ) * c := add_le_add h1 h2
      _ = ((t.length : ℚ) + 1) * c := by ring

lemma sum_map_div_mul_self (l : List ℚ) (h : l.sum ≠ 0) :
    (l.map (fun t => t / l.sum * 100)).sum = 100 := by
  have h1 : l.map (fun t => t / l.sum * 100)
      = l.map (fun t => (100 / l.sum) * t) := by
    apply List.map_congr_left
    intro t _
    ring
  rw [h1, List.sum_map_mul_left, List.map_id'']
  · field_simp
  · exact fun _ => rfl

lemma abs_updatePercentages_sub_le (ts : List ℚ) (hne : ts ≠ [])
    (hpos : ∀ t ∈ ts, 0 < t) :
    |(updatePercentages ts).sum - 100| ≤ (ts.length : ℚ) * (1 / 200) := by
  have hS : 0 < ts.sum := List.sum_pos ts hpos hne
  have h100 : (ts.map (fun t => t / ts.sum * 100)).sum = 100 :=
    sum_map_div_mul_self ts (ne_of_gt hS)
  have hstep : ∀ t ∈ ts,
      |roundTo 2 (t / ts.sum * 100) - (t / ts.sum * 100)| ≤ 1 / 200 := by
    intro t _
    have := abs_roundTo_sub_le 2 (t / ts.sum * 100)
    norm_num at this ⊢
    exact this
  have := abs_sum_map_sub_le ts
    (fun t => roundTo 2 (t / ts.sum * 100)) (fun t => t / ts.sum * 100)
    (1 / 200) hstep
  rw [h100] at this
  exact this

lemma abs_round6_percentages_sub_le (xs : List ℚ) (c : ℚ) (hc : 0 < c)
    (hS : c ≤ xs.sum) :
    |(xs.map (fun x => roundTo 2 (roundTo 6 x / xs.sum * 100))).sum - 100|
      ≤ (xs.length : ℚ) * (1 / 200) + (xs.length : ℚ) * (1 / (20000 * c)) := by
  have hSpos : 0 < xs.sum := lt_of_lt_of_le hc hS
  have h100 : (xs.map (fun x => x / xs.sum * 100)).sum = 100 :=
    sum_map_div_mul_self xs (ne_of_gt hSpos)
  have step1 : |(xs.map (fun x => roundTo 2 (roundTo 6 x / xs.sum * 100))).sum
      - (xs.map (fun x => roundTo 6 x / xs.sum * 100)).sum|
      ≤ (xs.length : ℚ) * (1 / 200) := by
    apply abs_sum_map_sub_le
    intro x _
    have := abs_roundTo_sub_le 2 (roundTo 6 x / xs.sum * 100)
    norm_num at this ⊢
    exact this
  have step2 : |(xs.map (fun x => roundTo 6 x / xs.sum * 100)).sum
      - (xs.map (fun x => x / xs.sum * 100)).sum|
      ≤ (xs.length : ℚ) * (1 / (20000 * c)) := by
    apply abs_sum_map_sub_le
    intro x _
    have h6 := abs_roundTo_sub_le 6 x
    have heq : roundTo 6 x / xs.sum * 100 - x / xs.sum * 100
        = (roundTo 6 x - x) * (100 / xs.sum) := by ring
    rw [heq, abs_mul, abs_of_pos (by positivity : (0 : ℚ) < 100 / xs.sum)]
    calc |roundTo 6 x - x| * (100 / xs.sum)
        ≤ (1 / (2 * 10 ^ 6)) * (100 / c) := by
          apply mul_le_mul h6 _ (by positivity) (by norm_num)
          gcongr
      _ = 1 / (20000 * c) := by
          rw [div_mul_div_comm, one_mul]
          rw [div_eq_div_iff (by positivity) (by positivity)]
          ring
  calc |(xs.map (fun x => roundTo 2 (roundTo 6 x / xs.sum * 100))).sum - 100|
      ≤ |(xs.map (fun x => roundTo 2 (roundTo 6 x / xs.sum * 100))).sum
          - (xs.map (fun x => roundTo 6 x / xs.sum * 100)).sum|
        + |(xs.map (fun x => roundTo 6 x / xs.sum * 100)).sum - 100| :=
        abs_sub_le _ _ _
    _ ≤ (xs.length : ℚ) * (1 / 200) + (xs.length : ℚ) * (1 / (20000 * c)) := by
        apply add_le_add step1
        calc |(xs.map (fun x => roundTo 6 x / xs.sum * 100)).sum - 100|
            = |(xs.map (fun x => roundTo 6 x / xs.sum * 100)).sum
                - (xs.map (fun x => x / xs.sum * 100)).sum| := by rw [h100]
          _ ≤ _ := step2

lemma auto_load_try_ret (file : Loading.FileRead) :
    Loading.auto_load_try file = .ret () := by
  cases file <;> rfl

lemma auto_load_foldl_ret (cs : List Loading.FileRead) :
    ∀ a : Loading.PyResult Unit,
      cs.foldl (fun _ file => Loading.auto_load_try file) a = a ∨
        cs.foldl (fun _ file => Loading.auto_load_try file) a = .ret () := by
  induction cs with
  | nil => intro a; left; rfl
  | cons c t ih =>
    intro a
    right
    rw [List.foldl_cons, auto_load_try_ret c]
    rcases ih (.ret ()) with h | h <;> exact h

/-! ### Claim theorems -/

/-- C4: for every concurrency pair and every choice of random draws, the
function-name keys of the `"functions"` mapping of the dataset returned by
`generate_dataset` are exactly the keys of the fixed `base_functions` table,
in the same order. -/
theorem generate_dataset_keys_eq_base (num_concurrent threads_per_sim : ℕ)
    (rng : String → GenConc.Draws) :
    (GenConc.generate_dataset num_concurrent threads_per_sim rng).functions.map
        Prod.fst
      = GenConc.base_functions.map Prod.fst := by
  simp only [GenConc.generate_dataset, GenConc.generate_function_data,
    List.map_map]
  rfl

/-- C6: every profiling record of every generated dataset has
`call_count ≥ 1`: the baseline and contended generators clamp the perturbed
call count with `max(1, int(...))`, and the concurrent generator copies the
`calls` entry of the fixed table, whose entries are all at least 1. -/
theorem call_count_ge_one :
    (∀ p ∈ GenConc.base_functions, 1 ≤ p.2.calls)
    ∧ (∀ (factors : GenConc.PerfFactors) (rng : String → GenConc.Draws),
        ∀ p ∈ (GenConc.generate_function_data factors rng).1,
          1 ≤ p.2.call_count)
    ∧ (∀ (avg_time std_dev : ℚ) (call_count : ℤ) (d : BaselineGen.BDraws),
        1 ≤ (BaselineGen._generate_function_data avg_time std_dev call_count
              d).call_count)
    ∧ (∀ (baseline_time baseline_std : ℚ) (call_count : ℤ)
        (contention_factor variability_increase : ℚ) (d : ContendedGen.CDraws),
        1 ≤ (ContendedGen._generate_contended_data baseline_time baseline_std
              call_count contention_factor variability_increase d).1.call_count)
    ∧ (∀ (baseline_time baseline_std : ℚ) (call_count : ℤ)
        (thread_improvement thread_efficiency contention_factor : ℚ)
        (net_effect : String) (d : HybridGen.HDraws),
        1 ≤ (HybridGen._generate_hybrid_data baseline_time baseline_std
              call_count thread_improvement thread_efficiency contention_factor
              net_effect d).1.call_count) := by
  refine ⟨base_functions_calls_pos, ?_, ?_, ?_, ?_⟩
  · intro factors rng p hp
    simp only [GenConc.generate_function_data, List.map_map,
      List.mem_map] at hp
    obtain ⟨q, hq, rfl⟩ := hp
    exact base_functions_calls_pos q hq
  · intro avg_time std_dev call_count d
    exact le_max_left 1 _
  · intro baseline_time baseline_std call_count cf vi d
    exact le_max_left 1 _
  · intro baseline_time baseline_std call_count ti te cf neff d
    exact le_max_left 1 _

/-- Witness for `call_count_ge_one`: the first conjunct applied at the
`SimulateHVAC` entry of the base table. -/
theorem call_count_ge_one_witness :
    (("SimulateHVAC", (⟨452/10, 842, 1164/100⟩ : GenConc.BaseFunc))
        ∈ GenConc.base_functions)
      ∧ 1 ≤ (("SimulateHVAC",
          (⟨452/10, 842, 1164/100⟩ : GenConc.BaseFunc)) :
            String × GenConc.BaseFunc).2.calls :=
  ⟨by simp [GenConc.base_functions],
   call_count_ge_one.1 _ (by simp [GenConc.base_functions])⟩

/-- C8 counterexample: at the `POLYF` parameters of the hybrid generator
(`baseline 0.008, thread_improvement 3.2, thread_efficiency 0.60,
contention_factor 2.3`) and unit/zero random draws, the recorded
`net_performance_ratio` is `0.99`, while `final_time / baseline_time`
is `115/116 ≈ 0.9914`: the recorded value is the ratio rounded to two
decimals, not the ratio itself. -/
theorem hybrid_recorded_ratio_counterexample :
    (HybridGen._generate_hybrid_data (8/1000) (1/1000) 125000 (32/10) (60/100)
        (23/10) "slight_loss" HybridGen.neutralHDraws).2.net_performance_ratio
      ≠ HybridGen.hybridFinalTimeSpec (8/1000) (32/10) (60/100) (23/10)
          / (8/1000) := by
  show roundTo 2 _ ≠ _
  norm_num [HybridGen.hybridFinalTimeSpec, roundTo, round_eq]

/-- C8 amended: for every parameter set and every choice of random draws, the
pre-jitter final time of `_generate_hybrid_data` is the threading gain and the
contention loss applied to the same baseline in that order,
`final_time = (baseline_time / (1 + (thread_improvement - 1) *
thread_efficiency)) * contention_factor` (the stored `total_time` is this
value plus jitter, clamped at 0.001 and rounded to 6 decimals), and the
recorded `net_performance_ratio` equals `final_time / baseline_time` rounded
to 2 decimal places. -/
theorem hybrid_final_time_formula (baseline_time baseline_std : ℚ)
    (call_count : ℤ) (thread_improvement thread_efficiency contention_factor : ℚ)
    (net_effect : String) (d : HybridGen.HDraws) :
    (HybridGen._generate_hybrid_data baseline_time baseline_std call_count
        thread_improvement thread_efficiency contention_factor net_effect
        d).1.total_time
      = roundTo 6 (max (1/1000)
          (HybridGen.hybridFinalTimeSpec baseline_time thread_improvement
              thread_efficiency contention_factor + d.totalNoise))
    ∧ (HybridGen._generate_hybrid_data baseline_time baseline_std call_count
        thread_improvement thread_efficiency contention_factor net_effect
        d).2.net_performance_ratio
      = roundTo 2 (HybridGen.hybridFinalTimeSpec baseline_time
          thread_improvement thread_efficiency contention_factor
            / baseline_time) :=
  ⟨rfl, rfl⟩

/-- C3 counterexample: in `test_data_loading.py` the project file's
`json.load` (line 25) is outside any `try`, so when `energyplus_project.json`
exists but holds invalid JSON the `JSONDecodeError` propagates to the caller
instead of being caught and turned into a return value. -/
theorem test_data_loading_decode_error_propagates :
    Loading.test_data_loading .malformed .missing = .exc "JSONDecodeError" :=
  rfl

/-- C3 amended: the comparison tools' loaders with paired handlers
(`energyplus_simple_compare.load_data`) catch both file-not-found and
JSON-decode errors and return `False`, and the UI's
`auto_load_project_file` catches every exception and returns normally; but
`test_data_loading.py` (project and sample files) and the visualization
loaders in the style of `energyplus_comparison_viz.load_data` (which catch
only `FileNotFoundError`) let a JSON-decode error propagate to the caller
exactly when a present input file holds invalid JSON. -/
theorem json_error_handling_amended :
    (∀ baseline measurement : Loading.FileRead, ∀ e,
        Loading.simple_compare_load_data baseline measurement ≠ .exc e)
    ∧ (∀ candidates : List Loading.FileRead, ∀ e,
        Loading.auto_load_project_file candidates ≠ .exc e)
    ∧ (∀ project sample : Loading.FileRead,
        Loading.test_data_loading project sample = .exc "JSONDecodeError"
          ↔ (project = .malformed
              ∨ (project = .wellFormed ∧ sample = .malformed)))
    ∧ (∀ baseline contended : Loading.FileRead,
        Loading.comparison_viz_load_data baseline contended
            = .exc "JSONDecodeError"
          ↔ (baseline = .malformed
              ∨ (baseline = .wellFormed ∧ contended = .malformed))) := by
  refine ⟨?_, ?_, ?_, ?_⟩
  · intro baseline measurement e
    cases baseline <;> cases measurement <;>
      simp [Loading.simple_compare_load_data]
  · intro candidates e
    rcases auto_load_foldl_ret candidates (.ret ()) with h | h <;>
      · unfold Loading.auto_load_project_file
        rw [h]
        simp
  · intro project sample
    cases project <;> cases sample <;>
      simp [Loading.test_data_loading]
  · intro baseline contended
    cases baseline <;> cases contended <;>
      simp [Loading.comparison_viz_load_data]

/-- C7: in `prepare_comparison_data`, the ratio of every emitted comparison
record is strictly positive whenever all stored `total_time` values of both
input files are positive: it is `measurement_time / baseline_time` when the
baseline time is positive and the fallback `1.0` otherwise. -/
theorem comparison_ratios_positive (bf mf : List (String × FuncData))
    (e : SimpleCompare.CompRecord)
    (_hb : ∀ p ∈ bf, 0 < p.2.total_time)
    (hm : ∀ p ∈ mf, 0 < p.2.total_time)
    (he : e ∈ SimpleCompare.prepare_comparison_data bf mf) :
    0 < e.ratio := by
  simp only [SimpleCompare.prepare_comparison_data, List.mem_map] at he
  obtain ⟨f, hf, rfl⟩ := he
  rw [List.mem_insertionSort] at hf
  simp only
  by_cases hpos : 0 < SimpleCompare.lookupTime f bf
  · rw [if_pos hpos]
    have hfm : f ∈ mf.map Prod.fst := by
      have := List.of_mem_filter hf
      simpa using this
    obtain ⟨p, hp, hpf⟩ := List.mem_map.mp hfm
    have hsome : (mf.find? (fun q => q.1 = f)).isSome := by
      rw [List.find?_isSome]
      exact ⟨p, hp, by simp [hpf]⟩
    obtain ⟨q, hq⟩ := Option.isSome_iff_exists.mp hsome
    have hqm : q ∈ mf := List.mem_of_find?_eq_some hq
    have hmt : SimpleCompare.lookupTime f mf = q.2.total_time := by
      unfold SimpleCompare.lookupTime
      rw [hq]
    rw [hmt]
    exact div_pos (hm q hqm) hpos
  · rw [if_neg hpos]
    norm_num

/-- Witness for `comparison_ratios_positive` on singleton inputs sharing the
function name `"A"` with times 1 and 2. -/
theorem comparison_ratios_positive_witness :
    0 < (SimpleCompare.CompRecord.mk "A" 1 2 2).ratio := by
  apply comparison_ratios_positive
    [("A", (⟨1, 1, 1, 1, 1, 1, 0⟩ : FuncData))]
    [("A", (⟨2, 1, 2, 2, 2, 1, 0⟩ : FuncData))]
  · intro p hp
    simp only [List.mem_singleton] at hp
    subst hp
    norm_num
  · intro p hp
    simp only [List.mem_singleton] at hp
    subst hp
    norm_num
  · show SimpleCompare.CompRecord.mk "A" 1 2 2
        ∈ SimpleCompare.prepare_comparison_data _ _
    norm_num [SimpleCompare.prepare_comparison_data,
      SimpleCompare.commonFunctions, SimpleCompare.lookupTime,
      List.insertionSort, List.orderedInsert, List.find?]

lemma insertionSort_take_spec {α : Type} (r : α → α → Prop) [DecidableRel r]
    [IsTotal α r] [IsTrans α r] (l : List α) (n : ℕ) (hn : n ≤ l.length) :
    ((List.insertionSort r l).take n).length = n
    ∧ List.Perm ((List.insertionSort r l).take n
        ++ (List.insertionSort r l).drop n) l
    ∧ List.Pairwise r ((List.insertionSort r l).take n)
    ∧ ∀ x ∈ (List.insertionSort r l).drop n,
        ∀ y ∈ (List.insertionSort r l).take n, r y x := by
  have hperm := List.perm_insertionSort r l
  have hsorted : List.Pairwise r (List.insertionSort r l) :=
    List.sorted_insertionSort r l
  refine ⟨?_, ?_, ?_, ?_⟩
  · rw [List.length_take, List.length_insertionSort]
    exact min_eq_left hn
  · rw [List.take_append_drop]
    exact hperm
  · exact List.Pairwise.sublist (List.take_sublist n _) hsorted
  · have h := hsorted
    rw [← List.take_append_drop n (List.insertionSort r l),
      List.pairwise_append] at h
    intro x hx y hy
    exact h.2.2 y hy x hx

set_option maxHeartbeats 1000000 in
/-- C5: the summary's `top_5_time_consumers` are the first five records of
the stable descending sort by `total_time` (and `most_called_functions` the
first five of the descending sort by `call_count`); for every record list of
length at least 5, those five form a sub-collection of the records that is
listed in non-increasing order of the sort key and dominates every remaining
record, i.e. they are exactly the five records with the greatest key. -/
theorem top5_consumers_and_most_called (num_concurrent threads_per_sim : ℕ)
    (rng : String → GenConc.Draws) (l : List (String × FuncData))
    (h5 : 5 ≤ l.length) :
    ((GenConc.generate_dataset num_concurrent threads_per_sim
          rng).summary.top_5_time_consumers
        = ((List.insertionSort GenConc.byTimeDesc
              (GenConc.generate_dataset num_concurrent threads_per_sim
                rng).functions).take 5).map
            (fun e => { function := e.1, time := e.2.total_time,
                        percentage := e.2.percentage_of_total })
      ∧ (GenConc.generate_dataset num_concurrent threads_per_sim
            rng).summary.most_called_functions
        = ((List.insertionSort GenConc.byCallsDesc
              (GenConc.generate_dataset num_concurrent threads_per_sim
                rng).functions).take 5).map
            (fun e => { function := e.1, calls := e.2.call_count,
                        avg_time := e.2.avg_time_per_call }))
    ∧ (((List.insertionSort GenConc.byTimeDesc l).take 5).length = 5
      ∧ List.Perm ((List.insertionSort GenConc.byTimeDesc l).take 5
          ++ (List.insertionSort GenConc.byTimeDesc l).drop 5) l
      ∧ List.Pairwise GenConc.byTimeDesc
          ((List.insertionSort GenConc.byTimeDesc l).take 5)
      ∧ ∀ x ∈ (List.insertionSort GenConc.byTimeDesc l).drop 5,
          ∀ y ∈ (List.insertionSort GenConc.byTimeDesc l).take 5,
            x.2.total_time ≤ y.2.total_time)
    ∧ (((List.insertionSort GenConc.byCallsDesc l).take 5).length = 5
      ∧ List.Perm ((List.insertionSort GenConc.byCallsDesc l).take 5
          ++ (List.insertionSort GenConc.byCallsDesc l).drop 5) l
      ∧ List.Pairwise GenConc.byCallsDesc
          ((List.insertionSort GenConc.byCallsDesc l).take 5)
      ∧ ∀ x ∈ (List.insertionSort GenConc.byCallsDesc l).drop 5,
          ∀ y ∈ (List.insertionSort GenConc.byCallsDesc l).take 5,
            x.2.call_count ≤ y.2.call_count) := by
  refine ⟨⟨?_, ?_⟩, ?_, ?_⟩
  · simp only [GenConc.generate_dataset]
  · simp only [GenConc.generate_dataset]
  · exact insertionSort_take_spec GenConc.byTimeDesc l 5 h5
  · exact insertionSort_take_spec GenConc.byCallsDesc l 5 h5

/-- Witness for `top5_consumers_and_most_called` on a six-record list. -/
theorem top5_consumers_witness :
    ((List.insertionSort GenConc.byTimeDesc
        [(("F1", (⟨6, 1, 1, 1, 1, 1, 0⟩ : FuncData)) : String × FuncData),
         ("F2", ⟨5, 2, 1, 1, 1, 1, 0⟩), ("F3", ⟨4, 3, 1, 1, 1, 1, 0⟩),
         ("F4", ⟨3, 4, 1, 1, 1, 1, 0⟩), ("F5", ⟨2, 5, 1, 1, 1, 1, 0⟩),
         ("F6", ⟨1, 6, 1, 1, 1, 1, 0⟩)]).take 5).length = 5 :=
  (top5_consumers_and_most_called 1 1 (fun _ => ⟨1, 1, 1, 1⟩)
    [("F1", ⟨6, 1, 1, 1, 1, 1, 0⟩), ("F2", ⟨5, 2, 1, 1, 1, 1, 0⟩),
     ("F3", ⟨4, 3, 1, 1, 1, 1, 0⟩), ("F4", ⟨3, 4, 1, 1, 1, 1, 0⟩),
     ("F5", ⟨2, 5, 1, 1, 1, 1, 0⟩), ("F6", ⟨1, 6, 1, 1, 1, 1, 0⟩)]
    (by norm_num)).2.1.1

set_option maxHeartbeats 2000000 in
/-- C2: percentages sum to approximately 100. For the matplotlib generators'
`_generate_summary` update (any nonempty list of positive stored totals), the
stored percentages sum to 100 within the per-record 2-decimal rounding error
`n * 0.005`; for the concurrent generator's `generate_function_data` (any
factors, any variability draws in the documented `uniform(0.95, 1.05)`
range), the stored percentages sum to 100 within 1/4 (the 48 per-record
2-decimal roundings plus the 6-decimal rounding of the stored numerators
against the un-rounded accumulated denominator). -/
theorem percentages_sum_approx_100 (ts : List ℚ)
    (factors : GenConc.PerfFactors) (rng : String → GenConc.Draws)
    (hne : ts ≠ []) (hpos : ∀ t ∈ ts, 0 < t)
    (hv : ∀ name, 19/20 ≤ (rng name).variability
        ∧ (rng name).variability ≤ 21/20) :
    |(updatePercentages ts).sum - 100| ≤ (ts.length : ℚ) * (1/200)
    ∧ |((GenConc.generate_function_data factors rng).1.map
          (fun p => p.2.percentage_of_total)).sum - 100| ≤ 1/4 := by
  refine ⟨abs_updatePercentages_sub_le ts hne hpos, ?_⟩
  have hmap : (GenConc.generate_function_data factors rng).1.map
        (fun p => p.2.percentage_of_total)
      = (GenConc.base_functions.map (fun p =>
            GenConc.apply_function_specific_effects p.1 p.2.time factors
              * (rng p.1).variability)).map
          (fun x => roundTo 2 (roundTo 6 x
              / (GenConc.base_functions.map (fun p =>
                  GenConc.apply_function_specific_effects p.1 p.2.time factors
                    * (rng p.1).variability)).sum * 100)) := by
    simp only [GenConc.generate_function_data, List.map_map]
    rfl
  rw [hmap]
  set xs := GenConc.base_functions.map (fun p =>
      GenConc.apply_function_specific_effects p.1 p.2.time factors
        * (rng p.1).variability) with hxs
  have hpt : ∀ p ∈ GenConc.base_functions,
      (19/200 : ℚ) * p.2.time
        ≤ GenConc.apply_function_specific_effects p.1 p.2.time factors
            * (rng p.1).variability := by
    intro p hp
    have htime := base_functions_time_pos p hp
    have hA : p.2.time * (1/10)
        ≤ GenConc.apply_function_specific_effects p.1 p.2.time factors := by
      unfold GenConc.apply_function_specific_effects
      exact le_max_right _ _
    have hA0 : 0 ≤ GenConc.apply_function_specific_effects p.1 p.2.time factors :=
      le_trans (by positivity) hA
    have hvp := (hv p.1).1
    calc (19/200 : ℚ) * p.2.time = (p.2.time * (1/10)) * (19/20) := by ring
      _ ≤ GenConc.apply_function_specific_effects p.1 p.2.time factors
            * (rng p.1).variability := mul_le_mul hA hvp (by norm_num) hA0
  have h1 : (GenConc.base_functions.map
      (fun p => (19/200 : ℚ) * p.2.time)).sum ≤ xs.sum := by
    rw [hxs]
    exact List.sum_le_sum hpt
  have h2 : (36 : ℚ) ≤ (GenConc.base_functions.map
      (fun p => (19/200 : ℚ) * p.2.time)).sum := by
    rw [List.sum_map_mul_left]
    norm_num [GenConc.base_functions]
  have hsum : (36 : ℚ) ≤ xs.sum := le_trans h2 h1
  have hlen : xs.length = 48 := by
    rw [hxs, List.length_map]
    rfl
  have hb := abs_round6_percentages_sub_le xs 36 (by norm_num) hsum
  rw [hlen] at hb
  calc |(xs.map (fun x => roundTo 2 (roundTo 6 x / xs.sum * 100))).sum - 100|
      ≤ (48 : ℚ) * (1/200) + (48 : ℚ) * (1/(20000 * 36)) := hb
    _ ≤ 1/4 := by norm_num

/-- Witness for `percentages_sum_approx_100` at the two-element totals list
`[1, 1]`, unit variability draws and the trivial factor set. -/
theorem percentages_sum_approx_100_witness :
    |(updatePercentages [1, 1]).sum - 100|
      ≤ (([1, 1] : List ℚ).length : ℚ) * (1/200) :=
  (percentages_sum_approx_100 [1, 1]
    (GenConc.calculate_performance_factors 1 1) (fun _ => ⟨1, 1, 1, 1⟩)
    (by simp) (by norm_num)
    (fun _ => ⟨by norm_num, by norm_num⟩)).1
